import Mathlib

/-!
Verification development for the dali-rp2 repository slice consisting of
src/dali/config_generator.py, src/dali/plugin/input/csv/binance_com.py and
tests/test_historical_bar.py.

Python exceptions are modelled by an explicit error type and fallible code
returns `Except`.  Python sets are modelled by `Finset String`; dictionaries
by association lists; exact decimal arithmetic by `ℚ`.
-/

/-- Error kinds raised by the modelled code.  Python raises
`Exception(f"Internal error: ...")` for internal defects (modelled by
`internalError`), `ValueError` for bad arguments (`valueError`, the error the
historical-bar tests expect and the spec calls InvalidArgument), and the
transaction constructors raise a validation error (`validationError`, the
spec's ValidationError).  The remaining constructors model builtin Python
exceptions reachable in the Binance CSV plugin. -/
inductive PyError where
  | internalError (msg : String)
  | valueError (msg : String)
  | validationError (msg : String)
  | keyError (key : String)
  | typeError (msg : String)
  | indexError
  | nameError (n : String)
  | stopIteration
  | fileNotFoundError (path : String)
  | invalidOperation
deriving DecidableEq

/-- Values of the dali Keyword enum used by config_generator.py.  Modelled
from the spec: dali_configuration.py is not under src, only its importers;
the spec describes UNKNOWN as a single distinguished sentinel value distinct
from the empty string and from any legitimate name, and the three header
keywords as the distinguished sections of the configuration artifact. -/
def UNKNOWN : String := "__unknown"

/-- Modelled from the spec: the in-transaction header section keyword. -/
def IN_HEADER : String := "in_header"

/-- Modelled from the spec: the out-transaction header section keyword. -/
def OUT_HEADER : String := "out_header"

/-- Modelled from the spec: the intra-transaction header section keyword. -/
def INTRA_HEADER : String := "intra_header"

/-- Transactions as seen by config_generator.py.  The generator reads only
`asset`, `holder`, `exchange` and, for the intra variant, the four
from/to fields, dispatching on the concrete class with isinstance; the
`otherTx` constructor stands for any AbstractTransaction subclass outside
the three known variants (the else branch at config_generator.py line 77). -/
inductive AbstractTransaction where
  | inTx (asset holder exchange : String)
  | outTx (asset holder exchange : String)
  | intraTx (asset from_holder to_holder from_exchange to_exchange : String)
  | otherTx (asset : String)
deriving DecidableEq

/-- Attribute access `transaction.asset`, defined on every variant. -/
def AbstractTransaction.asset : AbstractTransaction → String
  | .inTx a _ _ => a
  | .outTx a _ _ => a
  | .intraTx a _ _ _ _ => a
  | .otherTx a => a

/-- Accumulator of the aggregation loop: the `assets`, `holders` and
`exchanges` sets of config_generator.py lines 60 to 62. -/
abbrev AggSets := Finset String × Finset String × Finset String

/-- Message of the exception raised at config_generator.py line 78 (its
"Internal error: " prefix is carried by the `internalError` constructor). -/
def variantErrorMsg : String := "transaction is not a subclass of AbstractTransaction"

/-- One iteration of the loop at config_generator.py lines 63 to 79: skip a
fiat asset, add holder/exchange per variant, raise on an unknown variant,
then add the asset.  The fiat predicate is the module-level is_fiat import
(dali_configuration is not under src), passed here as the spec's explicit
fiat_predicate parameter. -/
def aggregateStep (is_fiat : String → Bool) (acc : AggSets)
    (transaction : AbstractTransaction) : Except PyError AggSets :=
  let (assets, holders, exchanges) := acc
  if is_fiat transaction.asset then Except.ok acc
  else
    match transaction with
    | .inTx asset holder exchange =>
        Except.ok (insert asset assets, insert holder holders, insert exchange exchanges)
    | .outTx asset holder exchange =>
        Except.ok (insert asset assets, insert holder holders, insert exchange exchanges)
    | .intraTx asset from_holder to_holder from_exchange to_exchange =>
        Except.ok (insert asset assets,
          insert to_holder (insert from_holder holders),
          insert to_exchange (insert from_exchange exchanges))
    | .otherTx _ => Except.error (PyError.internalError variantErrorMsg)

/-- The whole aggregation loop of config_generator.py lines 63 to 79,
threading the three sets through `aggregateStep`; an exception aborts the
loop as in Python. -/
def aggregateSets (is_fiat : String → Bool) :
    List AbstractTransaction → AggSets → Except PyError AggSets
  | [], acc => Except.ok acc
  | transaction :: rest, acc =>
    match aggregateStep is_fiat acc transaction with
    | Except.error e => Except.error e
    | Except.ok acc2 => aggregateSets is_fiat rest acc2

/-- The json_config dictionary written by config_generator.py: the three
header sections (their contents modelled opaquely as strings) and the three
participant collections (Python sets turned into lists; modelled as the
underlying `Finset`s, which carries the same information up to order). -/
structure JsonConfig where
  in_header : String
  out_header : String
  intra_header : String
  assets : Finset String
  holders : Finset String
  exchanges : Finset String
deriving DecidableEq

/-- Python dictionary subscript `d[k]`: raises KeyError when absent. -/
def pyDictGet (d : List (String × String)) (k : String) : Except PyError String :=
  match d.lookup k with
  | some v => Except.ok v
  | none => Except.error (PyError.keyError k)

/-- Assembly of json_config, config_generator.py lines 51 to 92: run the
aggregation loop, copy the three header sections out of
global_configuration (line 82, a subscript that can raise KeyError), remove
the UNKNOWN sentinel from each set if present (lines 84 to 89, which is
exactly `Finset.erase`), and fill the output collections. -/
def buildJsonConfig (is_fiat : String → Bool)
    (transactions : List AbstractTransaction)
    (global_configuration : List (String × String)) : Except PyError JsonConfig :=
  match aggregateSets is_fiat transactions (∅, ∅, ∅) with
  | Except.error e => Except.error e
  | Except.ok (assets, holders, exchanges) =>
    match pyDictGet global_configuration IN_HEADER with
    | Except.error e => Except.error e
    | Except.ok header_in =>
      match pyDictGet global_configuration OUT_HEADER with
      | Except.error e => Except.error e
      | Except.ok header_out =>
        match pyDictGet global_configuration INTRA_HEADER with
        | Except.error e => Except.error e
        | Except.ok header_intra =>
          Except.ok
            { in_header := header_in
              out_header := header_out
              intra_header := header_intra
              assets := assets.erase UNKNOWN
              holders := holders.erase UNKNOWN
              exchanges := exchanges.erase UNKNOWN }

/-- File system state: each path maps to the configuration value stored in
the file there, if any (file contents are modelled at the value level). -/
abbrev FS := String → Option JsonConfig

/-- The output path computed at config_generator.py line 47,
`Path(output_dir_path) / Path(f"...")`, for relative second components. -/
def outputFilePath (output_dir_path out_pre output_file_name : String) : String :=
  output_dir_path ++ "/" ++ out_pre ++ output_file_name

/-- generate_config_file, config_generator.py lines 30 to 95, as a state
transformer over the file system.  The isinstance guards on the string and
list parameters (lines 38 to 45) are discharged by typing.  Line 48 unlinks
a pre-existing file at the output path before the loop runs (when no file is
there, deleting the path is the identity, so the branch is folded in); then
json_config is assembled and, only on success, written at the output path. -/
def generate_config_file (is_fiat : String → Bool)
    (output_dir_path out_pre output_file_name : String)
    (transactions : List AbstractTransaction)
    (global_configuration : List (String × String))
    (fs : FS) : Except PyError Unit × FS :=
  let output_file_path := outputFilePath output_dir_path out_pre output_file_name
  let fs1 : FS := fun p => if p = output_file_path then none else fs p
  match buildJsonConfig is_fiat transactions global_configuration with
  | Except.error e => (Except.error e, fs1)
  | Except.ok cfg =>
      (Except.ok (), fun p => if p = output_file_path then some cfg else fs1 p)

/-- Modelled from the spec: HistoricalBar itself is not under src (only
tests/test_historical_bar.py is); one OHLCV sampling interval with a
duration, a start instant, four prices and a volume, an immutable value
object.  Times are measured in seconds from an arbitrary epoch and carried
exactly as rationals (the field open is spelled open_p because open is a
Lean keyword). -/
structure HistoricalBar where
  duration : ℚ
  timestamp : ℚ
  open_p : ℚ
  high : ℚ
  low : ℚ
  close : ℚ
  volume : ℚ
deriving DecidableEq

/-- Modelled from the spec: the Keyword value selecting the open price. -/
def HISTORICAL_PRICE_OPEN : String := "open"

/-- Modelled from the spec: the Keyword value selecting the high price. -/
def HISTORICAL_PRICE_HIGH : String := "high"

/-- Modelled from the spec: the Keyword value selecting the low price. -/
def HISTORICAL_PRICE_LOW : String := "low"

/-- Modelled from the spec: the Keyword value selecting the close price. -/
def HISTORICAL_PRICE_CLOSE : String := "close"

/-- Modelled from the spec: the Keyword value selecting the nearest price. -/
def HISTORICAL_PRICE_NEAREST : String := "nearest"

/-- Modelled from the spec: derive_transaction_price of HistoricalBar (the
method is not under src; only its tests are).  OPEN/HIGH/LOW/CLOSE return
the corresponding bar field with no further logic; NEAREST compares the
elapsed offset from the bar start against half the bar duration, returning
the open price on offsets at most the midpoint (ties, zero and negative
offsets included, with no bounds validation) and the close price beyond it;
any other selector raises the ValueError the tests expect, naming the
unsupported selector. -/
def derive_transaction_price (bar : HistoricalBar) (transaction_timestamp : ℚ)
    (price_keyword : String) : Except PyError ℚ :=
  if price_keyword = HISTORICAL_PRICE_OPEN then Except.ok bar.open_p
  else if price_keyword = HISTORICAL_PRICE_HIGH then Except.ok bar.high
  else if price_keyword = HISTORICAL_PRICE_LOW then Except.ok bar.low
  else if price_keyword = HISTORICAL_PRICE_CLOSE then Except.ok bar.close
  else if price_keyword = HISTORICAL_PRICE_NEAREST then
    if transaction_timestamp - bar.timestamp ≤ bar.duration / 2 then Except.ok bar.open_p
    else Except.ok bar.close
  else Except.error (PyError.valueError ("Unrecognized price keyword: " ++ price_keyword))

/-- Class attribute __BINANCE_COM of the Binance CSV plugin. -/
def BINANCE_COM : String := "Binance.com"

/-- Class attribute __BINANCE_COM_CSV of the Binance CSV plugin. -/
def BINANCE_COM_CSV : String := "Binance.com CSV"

/-- Class attribute __DELIMITER of the Binance CSV plugin. -/
def DELIMITER : String := ","

/-- Modelled from the spec: the Keyword value for a buy transaction type
(dali configuration is not under src). -/
def KEYWORD_BUY : String := "buy"

/-- Modelled from the spec: the Keyword value for a sell transaction type. -/
def KEYWORD_SELL : String := "sell"

/-- Python list subscript `l[i]`: raises IndexError when out of range. -/
def pyGet (l : List String) (i : Nat) : Except PyError String :=
  match l.get? i with
  | some v => Except.ok v
  | none => Except.error PyError.indexError

/-- Python `s.split()` restricted to the blanks occurring in this data:
split on spaces and drop empty fields. -/
def pySplit (s : String) : List String :=
  (s.splitOn " ").filter (fun t => t ≠ "")

/-- Plain decimal literals (optional sign, digits, optional fraction) as
exact rationals; anything else is rejected the way the decimal module
rejects a malformed literal. -/
def decimalStringToRat (s : String) : Option ℚ :=
  let sign : ℚ := if s.startsWith "-" then -1 else 1
  let body := if s.startsWith "-" then s.drop 1 else s
  match body.splitOn "." with
  | [intPart] => (intPart.toNat?).map (fun n => sign * (n : ℚ))
  | [intPart, fracPart] =>
      match intPart.toNat?, fracPart.toNat? with
      | some n, some f =>
          some (sign * ((n : ℚ) + (f : ℚ) / ((10 : ℚ) ^ fracPart.length)))
      | _, _ => none
  | _ => none

/-- The RP2Decimal constructor applied to a string field (rp2 is an external
dependency; its decimals are exact, so they embed into ℚ). -/
def RP2Decimal (s : String) : Except PyError ℚ :=
  match decimalStringToRat s with
  | some q => Except.ok q
  | none => Except.error PyError.invalidOperation

/-- Row produced by csv.reader for a one-character input line, the lines it
actually receives in binance_com.py (see parse_autoinvest_file below): a
comma separates two empty fields, any other ordinary character is a
one-field row.  The model assumes the iterated string contains no quote or
newline characters, which file paths do not. -/
def csvRowOfChar (c : Char) : List String :=
  if c = ',' then ["", ""] else [String.mk [c]]

/-- Arguments the plugin passes to the InTransaction constructor (the
constructor itself lives outside src; fields are the values passed at the
call site, quantity fields as the strings handed over). -/
structure InTransactionRec where
  plugin : String
  unique_id : String
  raw_data : String
  timestamp : String
  asset : String
  exchange : String
  holder : String
  transaction_type : String
  spot_price : String
  crypto_in : String
  fiat_fee : ℚ
  notes : String
deriving DecidableEq

/-- Arguments the plugin passes to the OutTransaction constructor; the call
site passes crypto_out_with_fee as an already-computed RP2Decimal and the
other quantities as strings, which the field types mirror. -/
structure OutTransactionRec where
  plugin : String
  unique_id : String
  raw_data : String
  timestamp : String
  asset : String
  exchange : String
  holder : String
  transaction_type : String
  spot_price : String
  crypto_out_no_fee : String
  crypto_out_with_fee : ℚ
  crypto_fee : String
  notes : String
deriving DecidableEq

/-- Transactions the CSV plugin can construct. -/
inductive CsvTransaction where
  | inT (t : InTransactionRec)
  | outT (t : OutTransactionRec)
deriving DecidableEq

/-- Body of the autoinvest loop for one csv row, binance_com.py lines 83 to
123, with subexpressions evaluated in source order.  The InTransaction is
built first (its asset is line[1], its amount the first blank-separated
field of line[4], its funding note line[5]); then the quote cell line[2] is
split into amount and symbol, the fee line[3] is parsed, and
crypto_out_with_fee is the sum of the parsed amount and fee.  Evaluating
the OutTransaction arguments then reaches `holder=account_holder` at line
115, a name that is not defined in the method scope (the parameter is
`self.account_holder`), so Python raises NameError there and the row never
yields its transactions. -/
def autoinvestRow (account_holder : String) (line : List String) :
    Except PyError (List CsvTransaction) := do
  let raw_data := String.intercalate DELIMITER line
  let ts ← pyGet line 0
  let asset ← pyGet line 1
  let baseAmtCell ← pyGet line 4
  let crypto_in ← pyGet (pySplit baseAmtCell) 0
  let fundSource ← pyGet line 5
  let tIn : InTransactionRec :=
    { plugin := BINANCE_COM_CSV
      unique_id := UNKNOWN
      raw_data := raw_data
      timestamp := ts ++ " -00:00"
      asset := asset
      exchange := BINANCE_COM
      holder := account_holder
      transaction_type := KEYWORD_BUY
      spot_price := UNKNOWN
      crypto_in := crypto_in
      fiat_fee := 0
      notes := "Funding from " ++ fundSource }
  let result : List CsvTransaction := [CsvTransaction.inT tIn]
  let quoteCell ← pyGet line 2
  let quote_asset_symbol ← pyGet (pySplit quoteCell) 1
  let quote_asset_amount ← pyGet (pySplit quoteCell) 0
  let feeCell ← pyGet line 3
  let amountD ← RP2Decimal quote_asset_amount
  let feeD ← RP2Decimal feeCell
  let crypto_out_with_fee : ℚ := amountD + feeD
  let _ := (result, quote_asset_symbol, crypto_out_with_fee)
  let _ts2 ← pyGet line 0
  Except.error (PyError.nameError "account_holder")

/-- Body of the betheth loop for one csv row, binance_com.py lines 134 to
171.  The InTransaction is built (asset hardcoded to BETH, amount line[3]);
evaluating the OutTransaction arguments then reaches
`asset=quote_asset_symbol` at line 161, a name never defined in this
method, so Python raises NameError there. -/
def bethethRow (account_holder : String) (line : List String) :
    Except PyError (List CsvTransaction) := do
  let raw_data := String.intercalate DELIMITER line
  let ts ← pyGet line 0
  let crypto_in ← pyGet line 3
  let tIn : InTransactionRec :=
    { plugin := BINANCE_COM_CSV
      unique_id := UNKNOWN
      raw_data := raw_data
      timestamp := ts ++ " -00:00"
      asset := "BETH"
      exchange := BINANCE_COM
      holder := account_holder
      transaction_type := KEYWORD_BUY
      spot_price := UNKNOWN
      crypto_in := crypto_in
      fiat_fee := 0
      notes := "Conversion from BETH -> ETH" }
  let result : List CsvTransaction := [CsvTransaction.inT tIn]
  let _ := result
  let _ts2 ← pyGet line 0
  Except.error (PyError.nameError "quote_asset_symbol")

/-- parse_autoinvest_file, binance_com.py lines 74 to 123.  Two slips are
mirrored faithfully.  First, line 78 passes the path string instead of
csv_file to csv.reader, so the reader iterates the characters of the path
and each character becomes one row (the opened file content is never
read — only its existence matters, as open would raise before the loop).
Second, the function body ends without a return statement, so on the rare
inputs where no row raises, Python returns None.  (The surrounding module
also fails to even import, see binanceModuleImports below.) -/
def parse_autoinvest_file (account_holder file_path : String)
    (file_exists : Bool) : Except PyError (Option (List CsvTransaction)) :=
  if !file_exists then Except.error (PyError.fileNotFoundError file_path)
  else
    match file_path.data.map csvRowOfChar with
    | [] => Except.error PyError.stopIteration
    | _header :: dataRows =>
      match dataRows.foldlM
          (fun acc line => (autoinvestRow account_holder line).map (fun t => acc ++ t))
          ([] : List CsvTransaction) with
      | Except.error e => Except.error e
      | Except.ok _result => Except.ok none

/-- parse_betheth_file, binance_com.py lines 125 to 171, with the same
reader-over-the-path and missing-return slips as parse_autoinvest_file. -/
def parse_betheth_file (account_holder file_path : String)
    (file_exists : Bool) : Except PyError (Option (List CsvTransaction)) :=
  if !file_exists then Except.error (PyError.fileNotFoundError file_path)
  else
    match file_path.data.map csvRowOfChar with
    | [] => Except.error PyError.stopIteration
    | _header :: dataRows =>
      match dataRows.foldlM
          (fun acc line => (bethethRow account_holder line).map (fun t => acc ++ t))
          ([] : List CsvTransaction) with
      | Except.error e => Except.error e
      | Except.ok _result => Except.ok none

/-- load, binance_com.py lines 63 to 72: start from an empty result list
and extend it with each configured file's parse result.  Because the parse
methods return None, the Python statement `result += ...` raises TypeError
when a file is configured. -/
def load (account_holder : String)
    (autoinvest_csv_file betheth_csv_file : Option String)
    (file_exists : String → Bool) : Except PyError (List CsvTransaction) := do
  let result : List CsvTransaction := []
  let result ← match autoinvest_csv_file with
    | none => pure result
    | some f => do
        let r ← parse_autoinvest_file account_holder f (file_exists f)
        match r with
        | none => Except.error (PyError.typeError "NoneType object is not iterable")
        | some l => pure (result ++ l)
  let result ← match betheth_csv_file with
    | none => pure result
    | some f => do
        let r ← parse_betheth_file account_holder f (file_exists f)
        match r with
        | none => Except.error (PyError.typeError "NoneType object is not iterable")
        | some l => pure (result ++ l)
  pure result

/-- Whether the binance_com.py module can be imported at all: line 61 is a
chained annotated assignment (`self.__logger: str = logging.Logger = ...`),
which the Python grammar rejects, and line 125 places the def statement of
parse_betheth_file at the same indentation as its body, an IndentationError;
importing the module therefore raises SyntaxError before any method can
run. -/
def binanceModuleImports : Bool := false

/-- One step of the loop on an unknown variant with a non-fiat asset raises
the internal error of config_generator.py line 78. -/
lemma aggregateStep_otherTx (is_fiat : String → Bool) (acc : AggSets) (a : String)
    (hf : is_fiat a = false) :
    aggregateStep is_fiat acc (AbstractTransaction.otherTx a)
      = Except.error (PyError.internalError variantErrorMsg) := by
  obtain ⟨assets, holders, exchanges⟩ := acc
  simp [aggregateStep, AbstractTransaction.asset, hf]

/-- The only exception a loop step can raise is the internal error of line
78 about an unknown transaction variant. -/
lemma aggregateStep_error_eq {is_fiat : String → Bool} {acc : AggSets}
    {t : AbstractTransaction} {e : PyError}
    (h : aggregateStep is_fiat acc t = Except.error e) :
    e = PyError.internalError variantErrorMsg := by
  obtain ⟨assets, holders, exchanges⟩ := acc
  cases t <;> simp only [aggregateStep, AbstractTransaction.asset] at h <;> split at h <;>
    first
      | (injection h with h2; exact h2.symm)
      | injection h

/-- A step that succeeds only grows each of the three sets. -/
lemma aggregateStep_mono {is_fiat : String → Bool} {acc acc2 : AggSets}
    {t : AbstractTransaction}
    (h : aggregateStep is_fiat acc t = Except.ok acc2) :
    acc.1 ⊆ acc2.1 ∧ acc.2.1 ⊆ acc2.2.1 ∧ acc.2.2 ⊆ acc2.2.2 := by
  obtain ⟨assets, holders, exchanges⟩ := acc
  cases t <;> simp only [aggregateStep, AbstractTransaction.asset] at h <;> split at h <;>
    first
      | (injection h with h2; subst h2;
         exact ⟨Finset.Subset.refl _, Finset.Subset.refl _, Finset.Subset.refl _⟩)
      | (injection h with h2; subst h2;
         refine ⟨Finset.subset_insert _ _, ?_, ?_⟩ <;>
           first
             | exact Finset.subset_insert _ _
             | exact (Finset.subset_insert _ _).trans (Finset.subset_insert _ _))
      | injection h

/-- The whole loop only grows each of the three sets. -/
lemma aggregateSets_mono {is_fiat : String → Bool}
    {transactions : List AbstractTransaction} {acc acc2 : AggSets}
    (h : aggregateSets is_fiat transactions acc = Except.ok acc2) :
    acc.1 ⊆ acc2.1 ∧ acc.2.1 ⊆ acc2.2.1 ∧ acc.2.2 ⊆ acc2.2.2 := by
  induction transactions generalizing acc with
  | nil =>
      simp [aggregateSets] at h
      simp [h]
  | cons t rest ih =>
      unfold aggregateSets at h
      cases hstep : aggregateStep is_fiat acc t with
      | error e => simp [hstep] at h
      | ok accMid =>
          rw [hstep] at h
          obtain ⟨h1, h2, h3⟩ := aggregateStep_mono hstep
          obtain ⟨g1, g2, g3⟩ := ih h
          exact ⟨h1.trans g1, h2.trans g2, h3.trans g3⟩

/-- A transaction list containing an unknown variant whose asset is not
fiat makes the loop raise the internal error, from any accumulator. -/
lemma aggregateSets_error_of_mem_otherTx {is_fiat : String → Bool}
    {transactions : List AbstractTransaction} {a : String}
    (ht : AbstractTransaction.otherTx a ∈ transactions)
    (hf : is_fiat a = false) :
    ∀ acc, aggregateSets is_fiat transactions acc
      = Except.error (PyError.internalError variantErrorMsg) := by
  induction transactions with
  | nil => cases ht
  | cons t rest ih =>
      intro acc
      rcases List.mem_cons.mp ht with hcase | hcase
      · subst hcase
        unfold aggregateSets
        rw [aggregateStep_otherTx is_fiat acc a hf]
      · unfold aggregateSets
        cases hstep : aggregateStep is_fiat acc t with
        | error e => rw [aggregateStep_error_eq hstep]
        | ok acc2 => exact ih hcase acc2

/-- The loop step on a fiat-classified asset is the `continue` at
config_generator.py line 65: the accumulator is returned unchanged. -/
lemma aggregateStep_fiat (is_fiat : String → Bool) (acc : AggSets)
    (t : AbstractTransaction) (hf : is_fiat t.asset = true) :
    aggregateStep is_fiat acc t = Except.ok acc := by
  obtain ⟨assets, holders, exchanges⟩ := acc
  simp [aggregateStep, hf]

/-- A successful step keeps the asset set inside the insertion of the
transaction asset. -/
lemma aggregateStep_assets_sub {is_fiat : String → Bool} {acc acc2 : AggSets}
    {t : AbstractTransaction}
    (h : aggregateStep is_fiat acc t = Except.ok acc2) :
    acc2.1 ⊆ insert t.asset acc.1 := by
  obtain ⟨assets, holders, exchanges⟩ := acc
  cases t <;> simp only [aggregateStep, AbstractTransaction.asset] at h <;> split at h <;>
    first
      | (injection h with h2; subst h2; exact Finset.subset_insert _ _)
      | (injection h with h2; subst h2; exact Finset.Subset.refl _)
      | injection h

/-- After a successful step, every member of the asset set was already
there or has a non-fiat asset code (the fiat guard precedes the insert). -/
lemma aggregateStep_assets_fiat {is_fiat : String → Bool} {acc acc2 : AggSets}
    {t : AbstractTransaction}
    (h : aggregateStep is_fiat acc t = Except.ok acc2) :
    ∀ a ∈ acc2.1, a ∈ acc.1 ∨ is_fiat a = false := by
  by_cases hf : is_fiat t.asset
  · have heq : acc2 = acc := by
      obtain ⟨assets, holders, exchanges⟩ := acc
      simp [aggregateStep, hf] at h
      exact h.symm
    intro a ha
    exact Or.inl (heq ▸ ha)
  · intro a ha
    rcases Finset.mem_insert.mp (aggregateStep_assets_sub h ha) with rfl | h2
    · exact Or.inr (by simpa using hf)
    · exact Or.inl h2

/-- A successful step on an intra transaction with a non-fiat asset puts
both holders in the holder set and both exchanges in the exchange set. -/
lemma aggregateStep_intra_mem {is_fiat : String → Bool} {acc acc2 : AggSets}
    {a fh th fe te : String} (hf : is_fiat a = false)
    (h : aggregateStep is_fiat acc (AbstractTransaction.intraTx a fh th fe te)
      = Except.ok acc2) :
    fh ∈ acc2.2.1 ∧ th ∈ acc2.2.1 ∧ fe ∈ acc2.2.2 ∧ te ∈ acc2.2.2 := by
  obtain ⟨assets, holders, exchanges⟩ := acc
  simp only [aggregateStep, AbstractTransaction.asset, hf, Bool.false_eq_true,
    if_false, Except.ok.injEq] at h
  subst h
  simp

/-- The whole loop ignores transactions with fiat assets: running it on a
list equals running it on the list with the fiat-asset transactions
filtered out. -/
lemma aggregateSets_skip_fiat (is_fiat : String → Bool)
    (transactions : List AbstractTransaction) (acc : AggSets) :
    aggregateSets is_fiat transactions acc
      = aggregateSets is_fiat
          (transactions.filter (fun t => !is_fiat t.asset)) acc := by
  induction transactions generalizing acc with
  | nil => rfl
  | cons t rest ih =>
      by_cases hf : is_fiat t.asset
      · rw [List.filter_cons_of_neg (by simp [hf])]
        have hstep := aggregateStep_fiat is_fiat acc t hf
        simp only [aggregateSets, hstep]
        exact ih acc
      · rw [List.filter_cons_of_pos (by simp [hf])]
        unfold aggregateSets
        cases hstep : aggregateStep is_fiat acc t with
        | error e => rfl
        | ok acc2 => exact ih acc2

/-- On success, every member of the final asset set was in the starting
accumulator or is non-fiat. -/
lemma aggregateSets_assets_fiat {is_fiat : String → Bool}
    {transactions : List AbstractTransaction} {acc r : AggSets}
    (h : aggregateSets is_fiat transactions acc = Except.ok r) :
    ∀ a ∈ r.1, a ∈ acc.1 ∨ is_fiat a = false := by
  induction transactions generalizing acc with
  | nil =>
      simp only [aggregateSets] at h
      injection h with h2
      subst h2
      intro a ha
      exact Or.inl ha
  | cons t rest ih =>
      unfold aggregateSets at h
      cases hstep : aggregateStep is_fiat acc t with
      | error e => rw [hstep] at h; exact Except.noConfusion h
      | ok acc2 =>
          rw [hstep] at h
          intro a ha
          rcases ih h a ha with hmem | hnf
          · exact aggregateStep_assets_fiat hstep a hmem
          · exact Or.inr hnf

/-- On success, an intra transaction with a non-fiat asset anywhere in the
list has contributed both holders and both exchanges to the final sets. -/
lemma aggregateSets_intra_mem {is_fiat : String → Bool}
    {transactions : List AbstractTransaction} {acc r : AggSets}
    {a fh th fe te : String}
    (ht : AbstractTransaction.intraTx a fh th fe te ∈ transactions)
    (hf : is_fiat a = false)
    (h : aggregateSets is_fiat transactions acc = Except.ok r) :
    fh ∈ r.2.1 ∧ th ∈ r.2.1 ∧ fe ∈ r.2.2 ∧ te ∈ r.2.2 := by
  induction transactions generalizing acc with
  | nil => cases ht
  | cons t rest ih =>
      unfold aggregateSets at h
      cases hstep : aggregateStep is_fiat acc t with
      | error e => rw [hstep] at h; exact Except.noConfusion h
      | ok acc2 =>
          rw [hstep] at h
          rcases List.mem_cons.mp ht with hcase | hcase
          · subst hcase
            obtain ⟨m1, m2, m3, m4⟩ := aggregateStep_intra_mem hf hstep
            obtain ⟨_, s2, s3⟩ := aggregateSets_mono h
            exact ⟨s2 m1, s2 m2, s3 m3, s3 m4⟩
          · exact ih hcase h

/-- Success of buildJsonConfig determines every field of the result: the
loop succeeded, the three header lookups succeeded with exactly the stored
header values, and each output collection is the loop set with UNKNOWN
erased. -/
lemma buildJsonConfig_ok_inv {is_fiat : String → Bool}
    {transactions : List AbstractTransaction}
    {global_configuration : List (String × String)} {cfg : JsonConfig}
    (h : buildJsonConfig is_fiat transactions global_configuration = Except.ok cfg) :
    ∃ r : AggSets,
      aggregateSets is_fiat transactions (∅, ∅, ∅) = Except.ok r ∧
      pyDictGet global_configuration IN_HEADER = Except.ok cfg.in_header ∧
      pyDictGet global_configuration OUT_HEADER = Except.ok cfg.out_header ∧
      pyDictGet global_configuration INTRA_HEADER = Except.ok cfg.intra_header ∧
      cfg.assets = r.1.erase UNKNOWN ∧
      cfg.holders = r.2.1.erase UNKNOWN ∧
      cfg.exchanges = r.2.2.erase UNKNOWN := by
  unfold buildJsonConfig at h
  cases hagg : aggregateSets is_fiat transactions (∅, ∅, ∅) with
  | error e => rw [hagg] at h; exact Except.noConfusion h
  | ok r =>
      obtain ⟨as, hs, es⟩ := r
      rw [hagg] at h
      cases h1 : pyDictGet global_configuration IN_HEADER with
      | error e => rw [h1] at h; exact Except.noConfusion h
      | ok v1 =>
          rw [h1] at h
          cases h2 : pyDictGet global_configuration OUT_HEADER with
          | error e => rw [h2] at h; exact Except.noConfusion h
          | ok v2 =>
              rw [h2] at h
              cases h3 : pyDictGet global_configuration INTRA_HEADER with
              | error e => rw [h3] at h; exact Except.noConfusion h
              | ok v3 =>
                  rw [h3] at h
                  injection h with h4
                  subst h4
                  exact ⟨(as, hs, es), rfl, rfl, rfl, rfl, rfl, rfl, rfl⟩

/-- A configuration value found at the output path after running
generate_config_file is the successfully assembled json_config. -/
lemma generate_config_file_artifact_inv {is_fiat : String → Bool}
    {output_dir_path out_pre output_file_name : String}
    {transactions : List AbstractTransaction}
    {global_configuration : List (String × String)} {fs : FS} {cfg : JsonConfig}
    (h : (generate_config_file is_fiat output_dir_path out_pre output_file_name
            transactions global_configuration fs).2
          (outputFilePath output_dir_path out_pre output_file_name) = some cfg) :
    buildJsonConfig is_fiat transactions global_configuration = Except.ok cfg := by
  simp only [generate_config_file] at h
  cases hb : buildJsonConfig is_fiat transactions global_configuration with
  | error e => rw [hb] at h; simp at h
  | ok cfg2 =>
      rw [hb] at h
      simp at h
      simp [h]

/-- The whole run of generate_config_file when json_config assembly raises:
the exception propagates and the file system only lost the pre-existing
artifact. -/
lemma generate_config_file_error {is_fiat : String → Bool}
    {output_dir_path out_pre output_file_name : String}
    {transactions : List AbstractTransaction}
    {global_configuration : List (String × String)} {fs : FS} {e : PyError}
    (he : buildJsonConfig is_fiat transactions global_configuration = Except.error e) :
    generate_config_file is_fiat output_dir_path out_pre output_file_name
        transactions global_configuration fs
      = (Except.error e,
         fun p => if p = outputFilePath output_dir_path out_pre output_file_name
           then none else fs p) := by
  simp only [generate_config_file]
  rw [he]

/-- Claim C1: for every input transaction list, the aggregation performed
by generate_config_file never includes the UNKNOWN sentinel in any of the
three output collections (assets, holders, exchanges) written to the
configuration artifact, even when input transactions carry UNKNOWN as
their asset, holder, or exchange value. -/
theorem c1_unknown_never_in_artifact (is_fiat : String → Bool)
    (output_dir_path out_pre output_file_name : String)
    (transactions : List AbstractTransaction)
    (global_configuration : List (String × String)) (fs : FS) (cfg : JsonConfig)
    (h : (generate_config_file is_fiat output_dir_path out_pre output_file_name
            transactions global_configuration fs).2
          (outputFilePath output_dir_path out_pre output_file_name) = some cfg) :
    UNKNOWN ∉ cfg.assets ∧ UNKNOWN ∉ cfg.holders ∧ UNKNOWN ∉ cfg.exchanges := by
  obtain ⟨r, hagg, h1, h2, h3, ha, hh, he⟩ :=
    buildJsonConfig_ok_inv (generate_config_file_artifact_inv h)
  refine ⟨?_, ?_, ?_⟩
  · rw [ha]; exact Finset.not_mem_erase _ _
  · rw [hh]; exact Finset.not_mem_erase _ _
  · rw [he]; exact Finset.not_mem_erase _ _

/-- Witness for C1 at a concrete run: one in-transaction whose holder is
the UNKNOWN sentinel; the artifact keeps the asset and exchange and drops
the sentinel. -/
theorem c1_unknown_never_in_artifact_witness :
    UNKNOWN ∉ ({ in_header := "inh", out_header := "outh", intra_header := "intrah",
                 assets := insert "BTC" ∅, holders := ∅,
                 exchanges := insert "Kraken" ∅ } : JsonConfig).assets
    ∧ UNKNOWN ∉ ({ in_header := "inh", out_header := "outh", intra_header := "intrah",
                   assets := insert "BTC" ∅, holders := ∅,
                   exchanges := insert "Kraken" ∅ } : JsonConfig).holders
    ∧ UNKNOWN ∉ ({ in_header := "inh", out_header := "outh", intra_header := "intrah",
                   assets := insert "BTC" ∅, holders := ∅,
                   exchanges := insert "Kraken" ∅ } : JsonConfig).exchanges :=
  c1_unknown_never_in_artifact (fun _ => false) "out" "p_" "config.json"
    [AbstractTransaction.inTx "BTC" UNKNOWN "Kraken"]
    [(IN_HEADER, "inh"), (OUT_HEADER, "outh"), (INTRA_HEADER, "intrah")]
    (fun _ => none) _ (by decide)

/-- Claim C3: if the transaction list passed to generate_config_file
contains an element that is none of the three known variants and whose
asset is not fiat, the aggregation fails with an InternalError, an error
kind distinguishable from ValidationError and from the ValueError the spec
calls InvalidArgument, and never silently skips the element. -/
theorem c3_unknown_variant_raises_internal_error (is_fiat : String → Bool)
    (transactions : List AbstractTransaction)
    (global_configuration : List (String × String)) (a : String)
    (ht : AbstractTransaction.otherTx a ∈ transactions)
    (hf : is_fiat a = false) :
    buildJsonConfig is_fiat transactions global_configuration
        = Except.error (PyError.internalError variantErrorMsg)
      ∧ (∀ m, PyError.internalError variantErrorMsg ≠ PyError.validationError m)
      ∧ (∀ m, PyError.internalError variantErrorMsg ≠ PyError.valueError m) := by
  refine ⟨?_, fun m h => PyError.noConfusion h, fun m h => PyError.noConfusion h⟩
  have hagg := aggregateSets_error_of_mem_otherTx ht hf (∅, ∅, ∅)
  unfold buildJsonConfig
  rw [hagg]

/-- Witness for C3 at a concrete run: a single unrecognized variant with a
non-fiat asset makes json_config assembly raise the internal error. -/
theorem c3_unknown_variant_raises_internal_error_witness :
    buildJsonConfig (fun _ => false) [AbstractTransaction.otherTx "X"] []
        = Except.error (PyError.internalError variantErrorMsg)
      ∧ (∀ m, PyError.internalError variantErrorMsg ≠ PyError.validationError m)
      ∧ (∀ m, PyError.internalError variantErrorMsg ≠ PyError.valueError m) :=
  c3_unknown_variant_raises_internal_error (fun _ => false)
    [AbstractTransaction.otherTx "X"] [] "X" (by decide) rfl

/-- Claim C4: a transaction whose asset is classified as fiat is skipped
entirely by the aggregation in generate_config_file: assembling json_config
over any list equals assembling it over the list with fiat-asset
transactions removed, and on success the output asset set never contains a
fiat-classified code. -/
theorem c4_fiat_transactions_skipped (is_fiat : String → Bool)
    (transactions : List AbstractTransaction)
    (global_configuration : List (String × String)) :
    buildJsonConfig is_fiat transactions global_configuration
        = buildJsonConfig is_fiat
            (transactions.filter (fun t => !is_fiat t.asset)) global_configuration
      ∧ ∀ cfg, buildJsonConfig is_fiat transactions global_configuration
            = Except.ok cfg →
          ∀ a ∈ cfg.assets, is_fiat a = false := by
  constructor
  · unfold buildJsonConfig
    rw [aggregateSets_skip_fiat]
  · intro cfg hcfg a ha
    obtain ⟨r, hagg, _, _, _, hassets, _, _⟩ := buildJsonConfig_ok_inv hcfg
    rw [hassets] at ha
    rcases aggregateSets_assets_fiat hagg a (Finset.mem_of_mem_erase ha) with hacc | hnf
    · exact absurd hacc (Finset.not_mem_empty a)
    · exact hnf

/-- Witness for C4 at a concrete run: a USD-classified in-transaction next
to a BTC one; the aggregation output over both equals the output over the
BTC one alone, and every asset in the produced set is non-fiat. -/
theorem c4_fiat_transactions_skipped_witness :
    buildJsonConfig (fun s => s == "USD")
          [AbstractTransaction.inTx "USD" "A" "X", AbstractTransaction.inTx "BTC" "B" "Y"]
          [(IN_HEADER, "i"), (OUT_HEADER, "o"), (INTRA_HEADER, "n")]
        = buildJsonConfig (fun s => s == "USD")
            ([AbstractTransaction.inTx "USD" "A" "X",
              AbstractTransaction.inTx "BTC" "B" "Y"].filter
              (fun t => !(t.asset == "USD")))
            [(IN_HEADER, "i"), (OUT_HEADER, "o"), (INTRA_HEADER, "n")]
      ∧ ∀ cfg, buildJsonConfig (fun s => s == "USD")
            [AbstractTransaction.inTx "USD" "A" "X", AbstractTransaction.inTx "BTC" "B" "Y"]
            [(IN_HEADER, "i"), (OUT_HEADER, "o"), (INTRA_HEADER, "n")]
          = Except.ok cfg →
          ∀ a ∈ cfg.assets, (fun s => s == "USD") a = false :=
  c4_fiat_transactions_skipped (fun s => s == "USD")
    [AbstractTransaction.inTx "USD" "A" "X", AbstractTransaction.inTx "BTC" "B" "Y"]
    [(IN_HEADER, "i"), (OUT_HEADER, "o"), (INTRA_HEADER, "n")]

/-- Claim C5: an intra transaction with a non-fiat asset contributes both
from_holder and to_holder to the holder set and both from_exchange and
to_exchange to the exchange set of the aggregation loop; and on a
transaction whose two endpoints coincide the loop succeeds, the duplicate
collapsing by set semantics. -/
theorem c5_intra_adds_both_endpoints (is_fiat : String → Bool)
    (transactions : List AbstractTransaction)
    (a fh th fe te : String) (r : AggSets)
    (ht : AbstractTransaction.intraTx a fh th fe te ∈ transactions)
    (hf : is_fiat a = false)
    (hr : aggregateSets is_fiat transactions (∅, ∅, ∅) = Except.ok r) :
    (fh ∈ r.2.1 ∧ th ∈ r.2.1 ∧ fe ∈ r.2.2 ∧ te ∈ r.2.2)
      ∧ ∀ a2 fh2 fe2 : String, is_fiat a2 = false →
          aggregateSets is_fiat
              [AbstractTransaction.intraTx a2 fh2 fh2 fe2 fe2] (∅, ∅, ∅)
            = Except.ok (insert a2 ∅, insert fh2 ∅, insert fe2 ∅) := by
  constructor
  · exact aggregateSets_intra_mem ht hf hr
  · intro a2 fh2 fe2 hf2
    simp [aggregateSets, aggregateStep, AbstractTransaction.asset, hf2,
      Finset.insert_idem]

/-- Witness for C5 at a concrete run: an intra transfer from (A, X) to
(B, Y) lands both holders and both exchanges in the loop output, and the
degenerate transfer from (C, Z) to itself succeeds with singletons. -/
theorem c5_intra_adds_both_endpoints_witness :
    ("A" ∈ ((insert "BTC" ∅, insert "B" (insert "A" ∅),
        insert "Y" (insert "X" ∅)) : AggSets).2.1
      ∧ "B" ∈ ((insert "BTC" ∅, insert "B" (insert "A" ∅),
          insert "Y" (insert "X" ∅)) : AggSets).2.1
      ∧ "X" ∈ ((insert "BTC" ∅, insert "B" (insert "A" ∅),
          insert "Y" (insert "X" ∅)) : AggSets).2.2
      ∧ "Y" ∈ ((insert "BTC" ∅, insert "B" (insert "A" ∅),
          insert "Y" (insert "X" ∅)) : AggSets).2.2)
      ∧ ∀ a2 fh2 fe2 : String, (fun _ => false) a2 = false →
          aggregateSets (fun _ => false)
              [AbstractTransaction.intraTx a2 fh2 fh2 fe2 fe2] (∅, ∅, ∅)
            = Except.ok (insert a2 ∅, insert fh2 ∅, insert fe2 ∅) :=
  c5_intra_adds_both_endpoints (fun _ => false)
    [AbstractTransaction.intraTx "BTC" "A" "B" "X" "Y"] "BTC" "A" "B" "X" "Y"
    (insert "BTC" ∅, insert "B" (insert "A" ∅), insert "Y" (insert "X" ∅))
    (by decide) rfl rfl

/-- Claim C9: the three header sections of the configuration artifact
produced by generate_config_file are exactly the corresponding sections of
the supplied global configuration, copied verbatim and not computed by the
aggregation, regardless of the transaction list contents. -/
theorem c9_headers_copied_verbatim (is_fiat : String → Bool)
    (output_dir_path out_pre output_file_name : String)
    (transactions : List AbstractTransaction)
    (global_configuration : List (String × String)) (fs : FS) (cfg : JsonConfig)
    (h : (generate_config_file is_fiat output_dir_path out_pre output_file_name
            transactions global_configuration fs).2
          (outputFilePath output_dir_path out_pre output_file_name) = some cfg) :
    global_configuration.lookup IN_HEADER = some cfg.in_header
      ∧ global_configuration.lookup OUT_HEADER = some cfg.out_header
      ∧ global_configuration.lookup INTRA_HEADER = some cfg.intra_header := by
  obtain ⟨r, hagg, h1, h2, h3, _, _, _⟩ :=
    buildJsonConfig_ok_inv (generate_config_file_artifact_inv h)
  refine ⟨?_, ?_, ?_⟩
  · unfold pyDictGet at h1
    cases hl : global_configuration.lookup IN_HEADER with
    | none => rw [hl] at h1; exact Except.noConfusion h1
    | some v => rw [hl] at h1; injection h1 with h4; rw [h4]
  · unfold pyDictGet at h2
    cases hl : global_configuration.lookup OUT_HEADER with
    | none => rw [hl] at h2; exact Except.noConfusion h2
    | some v => rw [hl] at h2; injection h2 with h4; rw [h4]
  · unfold pyDictGet at h3
    cases hl : global_configuration.lookup INTRA_HEADER with
    | none => rw [hl] at h3; exact Except.noConfusion h3
    | some v => rw [hl] at h3; injection h3 with h4; rw [h4]

/-- Witness for C9 at a concrete run with a non-empty transaction list. -/
theorem c9_headers_copied_verbatim_witness :
    [(IN_HEADER, "iv"), (OUT_HEADER, "ov"), (INTRA_HEADER, "nv")].lookup IN_HEADER
        = some ({ in_header := "iv", out_header := "ov", intra_header := "nv",
                  assets := insert "BTC" ∅, holders := insert "A" ∅,
                  exchanges := insert "X" ∅ } : JsonConfig).in_header
      ∧ [(IN_HEADER, "iv"), (OUT_HEADER, "ov"), (INTRA_HEADER, "nv")].lookup OUT_HEADER
        = some ({ in_header := "iv", out_header := "ov", intra_header := "nv",
                  assets := insert "BTC" ∅, holders := insert "A" ∅,
                  exchanges := insert "X" ∅ } : JsonConfig).out_header
      ∧ [(IN_HEADER, "iv"), (OUT_HEADER, "ov"), (INTRA_HEADER, "nv")].lookup INTRA_HEADER
        = some ({ in_header := "iv", out_header := "ov", intra_header := "nv",
                  assets := insert "BTC" ∅, holders := insert "A" ∅,
                  exchanges := insert "X" ∅ } : JsonConfig).intra_header :=
  c9_headers_copied_verbatim (fun _ => false) "out" "p_" "config.json"
    [AbstractTransaction.inTx "BTC" "A" "X"]
    [(IN_HEADER, "iv"), (OUT_HEADER, "ov"), (INTRA_HEADER, "nv")]
    (fun _ => none) _ (by decide)

/-- Claim C10: generate_config_file is not atomic on error.  It deletes any
pre-existing artifact at the output path before examining a single
transaction, so when json_config assembly subsequently fails (an
unrecognized transaction variant with a non-fiat asset in the list, or a
global configuration missing one of the three header keys), the prior
artifact has already been destroyed and no new artifact is written: the
call errors yet the on-disk state has changed. -/
theorem c10_error_destroys_prior_artifact (is_fiat : String → Bool)
    (output_dir_path out_pre output_file_name : String)
    (transactions : List AbstractTransaction)
    (global_configuration : List (String × String)) (fs : FS) (oldCfg : JsonConfig)
    (hpre : fs (outputFilePath output_dir_path out_pre output_file_name)
      = some oldCfg)
    (hbad : (∃ a, AbstractTransaction.otherTx a ∈ transactions ∧ is_fiat a = false)
      ∨ global_configuration.lookup IN_HEADER = none
      ∨ global_configuration.lookup OUT_HEADER = none
      ∨ global_configuration.lookup INTRA_HEADER = none) :
    (∃ e, (generate_config_file is_fiat output_dir_path out_pre output_file_name
        transactions global_configuration fs).1 = Except.error e)
    ∧ (generate_config_file is_fiat output_dir_path out_pre output_file_name
        transactions global_configuration fs).2
          (outputFilePath output_dir_path out_pre output_file_name) = none := by
  have herr : ∃ e2, buildJsonConfig is_fiat transactions global_configuration
      = Except.error e2 := by
    cases hagg : aggregateSets is_fiat transactions (∅, ∅, ∅) with
    | error e2 =>
        refine ⟨e2, ?_⟩
        unfold buildJsonConfig
        rw [hagg]
    | ok r =>
        obtain ⟨as, hs, es⟩ := r
        rcases hbad with ⟨a, ht, hf⟩ | hk | hk | hk
        · rw [aggregateSets_error_of_mem_otherTx ht hf (∅, ∅, ∅)] at hagg
          exact Except.noConfusion hagg
        · refine ⟨PyError.keyError IN_HEADER, ?_⟩
          have hget : pyDictGet global_configuration IN_HEADER
              = Except.error (PyError.keyError IN_HEADER) := by
            unfold pyDictGet
            rw [hk]
          unfold buildJsonConfig
          rw [hagg, hget]
        · cases h1 : pyDictGet global_configuration IN_HEADER with
          | error e2 =>
              refine ⟨e2, ?_⟩
              unfold buildJsonConfig
              rw [hagg, h1]
          | ok v1 =>
              refine ⟨PyError.keyError OUT_HEADER, ?_⟩
              have hget : pyDictGet global_configuration OUT_HEADER
                  = Except.error (PyError.keyError OUT_HEADER) := by
                unfold pyDictGet
                rw [hk]
              unfold buildJsonConfig
              rw [hagg, h1, hget]
        · cases h1 : pyDictGet global_configuration IN_HEADER with
          | error e2 =>
              refine ⟨e2, ?_⟩
              unfold buildJsonConfig
              rw [hagg, h1]
          | ok v1 =>
              cases h2 : pyDictGet global_configuration OUT_HEADER with
              | error e2 =>
                  refine ⟨e2, ?_⟩
                  unfold buildJsonConfig
                  rw [hagg, h1, h2]
              | ok v2 =>
                  refine ⟨PyError.keyError INTRA_HEADER, ?_⟩
                  have hget : pyDictGet global_configuration INTRA_HEADER
                      = Except.error (PyError.keyError INTRA_HEADER) := by
                    unfold pyDictGet
                    rw [hk]
                  unfold buildJsonConfig
                  rw [hagg, h1, h2, hget]
  obtain ⟨e2, he⟩ := herr
  rw [generate_config_file_error he]
  exact ⟨⟨e2, rfl⟩, by simp⟩

/-- Witness for C10 at a concrete run: a pre-existing artifact at the
output path and a transaction list holding an unrecognized variant; the
call errors and the path afterwards holds nothing. -/
theorem c10_error_destroys_prior_artifact_witness :
    (∃ e, (generate_config_file (fun _ => false) "out" "p_" "config.json"
        [AbstractTransaction.otherTx "X"] []
        (fun p => if p = "out/p_config.json"
          then some { in_header := "i", out_header := "o", intra_header := "n",
                      assets := ∅, holders := ∅, exchanges := ∅ }
          else none)).1 = Except.error e)
    ∧ (generate_config_file (fun _ => false) "out" "p_" "config.json"
        [AbstractTransaction.otherTx "X"] []
        (fun p => if p = "out/p_config.json"
          then some { in_header := "i", out_header := "o", intra_header := "n",
                      assets := ∅, holders := ∅, exchanges := ∅ }
          else none)).2 (outputFilePath "out" "p_" "config.json") = none :=
  c10_error_destroys_prior_artifact (fun _ => false) "out" "p_" "config.json"
    [AbstractTransaction.otherTx "X"] []
    (fun p => if p = "out/p_config.json"
      then some { in_header := "i", out_header := "o", intra_header := "n",
                  assets := ∅, holders := ∅, exchanges := ∅ }
      else none)
    { in_header := "i", out_header := "o", intra_header := "n",
      assets := ∅, holders := ∅, exchanges := ∅ }
    (by decide) (Or.inl ⟨"X", by decide, rfl⟩)

/-- Claim C7: derive_transaction_price with strategy OPEN returns exactly
the bar open price, HIGH the high, LOW the low and CLOSE the close, for
every bar and every transaction timestamp whatsoever: the result is
independent of the timestamp argument. -/
theorem c7_fixed_selectors_ignore_timestamp (bar : HistoricalBar)
    (transaction_timestamp : ℚ) :
    derive_transaction_price bar transaction_timestamp HISTORICAL_PRICE_OPEN
        = Except.ok bar.open_p
      ∧ derive_transaction_price bar transaction_timestamp HISTORICAL_PRICE_HIGH
        = Except.ok bar.high
      ∧ derive_transaction_price bar transaction_timestamp HISTORICAL_PRICE_LOW
        = Except.ok bar.low
      ∧ derive_transaction_price bar transaction_timestamp HISTORICAL_PRICE_CLOSE
        = Except.ok bar.close := by
  refine ⟨rfl, rfl, rfl, rfl⟩

/-- The bar of the end-to-end scenario in tests/test_historical_bar.py:
open 1.0, high 3.0, low 0.5, close 2.0, over 60 seconds, volume 1000, with
the bar start taken as time zero. -/
def testBar : HistoricalBar :=
  { duration := 60, timestamp := 0, open_p := 1, high := 3, low := 1/2,
    close := 2, volume := 1000 }

/-- Claim C2: with strategy NEAREST, derive_transaction_price returns the
bar open price whenever the elapsed offset from bar start is at most half
the bar duration (the exact midpoint, zero and negative offsets included)
and the close price whenever the offset exceeds half the duration (offsets
at or past bar end included); in particular on the 60-second test bar the
offsets 29 and 30 yield the open price 1.0 and the offset 31 yields the
close price 2.0. -/
theorem c2_nearest_midpoint_tie_to_open (bar : HistoricalBar)
    (transaction_timestamp : ℚ) :
    derive_transaction_price bar transaction_timestamp HISTORICAL_PRICE_NEAREST
        = Except.ok (if transaction_timestamp - bar.timestamp ≤ bar.duration / 2
            then bar.open_p else bar.close)
      ∧ derive_transaction_price testBar 29 HISTORICAL_PRICE_NEAREST = Except.ok 1
      ∧ derive_transaction_price testBar 30 HISTORICAL_PRICE_NEAREST = Except.ok 1
      ∧ derive_transaction_price testBar 31 HISTORICAL_PRICE_NEAREST = Except.ok 2 := by
  refine ⟨?_, ?_, ?_, ?_⟩
  · by_cases hc : transaction_timestamp - bar.timestamp ≤ bar.duration / 2 <;>
      simp [derive_transaction_price, HISTORICAL_PRICE_OPEN, HISTORICAL_PRICE_HIGH,
        HISTORICAL_PRICE_LOW, HISTORICAL_PRICE_CLOSE, HISTORICAL_PRICE_NEAREST, hc]
  all_goals
    norm_num [derive_transaction_price, testBar, HISTORICAL_PRICE_OPEN,
      HISTORICAL_PRICE_HIGH, HISTORICAL_PRICE_LOW, HISTORICAL_PRICE_CLOSE,
      HISTORICAL_PRICE_NEAREST,
      show ("nearest" : String) ≠ "open" from by decide,
      show ("nearest" : String) ≠ "high" from by decide,
      show ("nearest" : String) ≠ "low" from by decide,
      show ("nearest" : String) ≠ "close" from by decide]

/-- Claim C8: calling derive_transaction_price with a strategy value
outside the five recognized selectors always fails with the ValueError the
spec calls InvalidArgument, whose message names the unsupported selector,
and never returns a price. -/
theorem c8_unknown_strategy_fails (bar : HistoricalBar)
    (transaction_timestamp : ℚ) (price_keyword : String)
    (h1 : price_keyword ≠ HISTORICAL_PRICE_OPEN)
    (h2 : price_keyword ≠ HISTORICAL_PRICE_HIGH)
    (h3 : price_keyword ≠ HISTORICAL_PRICE_LOW)
    (h4 : price_keyword ≠ HISTORICAL_PRICE_CLOSE)
    (h5 : price_keyword ≠ HISTORICAL_PRICE_NEAREST) :
    derive_transaction_price bar transaction_timestamp price_keyword
      = Except.error
          (PyError.valueError ("Unrecognized price keyword: " ++ price_keyword)) := by
  simp [derive_transaction_price, h1, h2, h3, h4, h5]

/-- Witness for C8 at the selector the test passes: the string Invalid is
none of the five recognized selectors and produces the ValueError naming
it. -/
theorem c8_unknown_strategy_fails_witness :
    derive_transaction_price testBar 0 "Invalid"
      = Except.error
          (PyError.valueError ("Unrecognized price keyword: " ++ "Invalid")) :=
  c8_unknown_strategy_fails testBar 0 "Invalid"
    (by decide) (by decide) (by decide) (by decide) (by decide)

/-- Claim C6 fails on the code as written: instead of returning one
InTransaction and one OutTransaction per autoinvest data row, load raises.
With the one-character path a (whose reader-misuse yields a header row and
no data rows) parse_autoinvest_file runs its loop zero times, falls off the
end returning None, and the `result += None` in load raises TypeError; with
the path b.csv the loop runs on one-field rows read from the path
characters and the subscript line[1] raises IndexError.  In neither case,
nor any other, does a constructed OutTransaction reach the returned
list. -/
theorem c6_autoinvest_load_never_returns_transactions :
    load "Alice" (some "a") none (fun _ => true)
        = Except.error (PyError.typeError "NoneType object is not iterable")
      ∧ load "Alice" (some "b.csv") none (fun _ => true)
        = Except.error PyError.indexError := by
  exact ⟨rfl, rfl⟩
